import Mathlib

/- Shallow embedding of the Encore auth service in src/authapi/authapi.go.

   The persistent `users` table (migrations/1_create_users.up.sql: unique
   email, unique api_key) is modelled as a list of rows; each endpoint is a
   function from the store (and the request plus explicit oracles for the
   non-deterministic effects: the bcrypt salt, the random bytes read by
   crypto/rand, and injected database errors) to a typed result paired with
   the resulting store.  Go byte strings read by crypto/rand are `Fin 256`. -/

namespace AuthAPI

/-- Go len(s): the UTF-8 byte length of a string. -/
def goLen (s : String) : Nat := (s.data.map Char.utf8Size).sum

/-- Go strings.HasPrefix(s, p) (argument order: pattern first here). -/
def hasPrefixStr (p s : String) : Bool := p.data.isPrefixOf s.data

/-- Go strings.Contains(s, c) for a single-character pattern. -/
def containsChar (s : String) (c : Char) : Bool := s.data.contains c

/-- The fixed version-and-cost header of a bcrypt hash string ("$2a$" plus
    DefaultCost 10), as produced by bcrypt.GenerateFromPassword. -/
def bcryptHeader : String := "$2a$10$"

/-- Modelled contract of bcrypt.GenerateFromPassword from
    golang.org/x/crypto/bcrypt (external library, abstracted by its
    interface): the output records the fixed header, the random 22-character
    salt, and a digest determined injectively by the password.  Only the
    equational contract matters here: the digest is kept as the password
    component itself, which keeps CompareHashAndPassword exact. -/
def bcryptGenerateFromPassword (salt password : String) : String :=
  ⟨bcryptHeader.data ++ salt.data ++ password.data⟩

/-- Modelled contract of bcrypt.CompareHashAndPassword: parse the salt out
    of the hash (22 characters after the 7-character header), recompute, and
    compare.  Returns true exactly when the hash was generated from this
    password. -/
def bcryptCompareHashAndPassword (hash password : String) : Bool :=
  hash == (⟨bcryptHeader.data ++ ((hash.data.drop 7).take 22) ++ password.data⟩ : String)

/-- Lowercase hex digit for a value below 16, as in encoding/hex. -/
def hexDigit (n : Fin 16) : Char :=
  if n.val < 10 then Char.ofNat (48 + n.val) else Char.ofNat (87 + n.val)

/-- The two hex digits of one byte (high nibble first), as in encoding/hex. -/
def hexPair (b : Fin 256) : List Char :=
  [hexDigit ⟨b.val / 16, by have := b.isLt; omega⟩,
   hexDigit ⟨b.val % 16, by have := b.isLt; omega⟩]

/-- encoding/hex.EncodeToString on a byte slice, character-list form. -/
def hexEncodeList (bytes : List (Fin 256)) : List Char :=
  bytes.foldr (fun b acc => hexPair b ++ acc) []

/-- encoding/hex.EncodeToString on a byte slice. -/
def hexEncode (bytes : List (Fin 256)) : String := ⟨hexEncodeList bytes⟩

/-- Value of a lowercase hex digit character, if it is one. -/
def hexDigitVal (c : Char) : Option (Fin 16) :=
  if h : 48 ≤ c.toNat ∧ c.toNat ≤ 57 then some ⟨c.toNat - 48, by omega⟩
  else if h2 : 97 ≤ c.toNat ∧ c.toNat ≤ 102 then some ⟨c.toNat - 87, by omega⟩
  else none

/-- Decoder inverse to hexEncodeList (encoding/hex.DecodeString). -/
def hexDecodeList : List Char → Option (List (Fin 256))
  | [] => some []
  | [_] => none
  | c1 :: c2 :: rest => do
    let hi ← hexDigitVal c1
    let lo ← hexDigitVal c2
    let rest2 ← hexDecodeList rest
    pure (⟨16 * hi.val + lo.val, by have := hi.isLt; have := lo.isLt; omega⟩ :: rest2)

/-- generateAPIKey (authapi.go:61-68): the "esk_" tag followed by the hex
    encoding of the bytes read from crypto/rand (the code reads 16 bytes;
    the randomness is the explicit argument here).  The rand.Read failure
    branch is modelled at the call sites by an `Option` randomness oracle. -/
def generateAPIKey (bytes : List (Fin 256)) : String :=
  "esk_" ++ hexEncode bytes

/-- The errs.Error codes used by the service. -/
inductive ErrCode where
  | invalidArgument
  | alreadyExists
  | unauthenticated
  | internal
  deriving DecidableEq, Repr

/-- An errs.Error value: a code and a message. -/
structure Err where
  code : ErrCode
  message : String
  deriving DecidableEq, Repr

/-- A row of the users table (struct User in authapi.go). -/
structure User where
  id : Nat
  email : String
  password : String
  apiKey : String
  deriving DecidableEq, Repr

/-- The users table. -/
abbrev Store := List User

/-- The unique constraints of migrations/1_create_users.up.sql: email and
    api_key are each unique across rows. -/
def Wf (s : Store) : Prop :=
  (s.map User.email).Nodup ∧ (s.map User.apiKey).Nodup

/-- SELECT ... FROM users WHERE email = $1 (first matching row). -/
def findByEmail (s : Store) (e : String) : Option User :=
  s.find? (fun u => u.email == e)

/-- SELECT ... FROM users WHERE api_key = $1 (first matching row). -/
def findByKey (s : Store) (k : String) : Option User :=
  s.find? (fun u => u.apiKey == k)

/-- The id BIGSERIAL assigns to the next inserted row. -/
def nextId (s : Store) : Nat := s.length + 1

/-- INSERT INTO users ... ON CONFLICT (email) DO NOTHING, returning the new
    store and RowsAffected, or a database error.  An email conflict is a
    no-op (0 rows); an api_key collision with another row violates the
    unique constraint and errors; `execErr` injects an external database
    failure (connection loss etc.). -/
def dbInsertUser (s : Store) (u : User) (execErr : Option String) :
    Except String (Store × Nat) :=
  match execErr with
  | some e => Except.error e
  | none =>
    if s.any (fun v => v.email == u.email) then Except.ok (s, 0)
    else if s.any (fun v => v.apiKey == u.apiKey) then
      Except.error "duplicate key value violates unique constraint"
    else Except.ok (s ++ [u], 1)

/-- The row transformation of UPDATE users SET api_key = $1 WHERE
    email = $2: every row whose email matches gets the new key. -/
def applyKeyUpdate (s : Store) (newKey email : String) : Store :=
  s.map (fun v => if v.email == email then { v with apiKey := newKey } else v)

/-- UPDATE users SET api_key = $1 WHERE email = $2, returning the new store
    and RowsAffected, or a database error (injected via `execErr`, or an
    api_key unique-constraint collision with a different row). -/
def dbUpdateKey (s : Store) (newKey email : String) (execErr : Option String) :
    Except String (Store × Nat) :=
  match execErr with
  | some e => Except.error e
  | none =>
    if s.any (fun v => v.apiKey == newKey && !(v.email == email)) then
      Except.error "duplicate key value violates unique constraint"
    else
      Except.ok (applyKeyUpdate s newKey email,
                 (s.filter (fun v => v.email == email)).length)

structure SignupParams where
  email : String
  password : String
  deriving DecidableEq, Repr

structure SignupResponse where
  apiKey : String
  deriving DecidableEq, Repr

structure LoginParams where
  email : String
  password : String
  deriving DecidableEq, Repr

structure LoginResponse where
  apiKey : String
  deriving DecidableEq, Repr

structure RegenerateKeyResponse where
  newAPIKey : String
  deriving DecidableEq, Repr

structure ProtectedParams where
  data : String
  deriving DecidableEq, Repr

structure ProtectedResponse where
  message : String
  deriving DecidableEq, Repr

/-- Signup (authapi.go:71-130).  `hashErr` injects a bcrypt failure, `salt`
    is the random salt bcrypt draws, `randBytes` is what rand.Read produces
    inside generateAPIKey (none = read failure), `execErr` injects a
    database failure. -/
def Signup (s : Store) (params : SignupParams) (hashErr : Bool) (salt : String)
    (randBytes : Option (List (Fin 256))) (execErr : Option String) :
    Except Err SignupResponse × Store :=
  if params.email == "" || !(containsChar params.email '@') then
    (Except.error ⟨ErrCode.invalidArgument, "valid email is required"⟩, s)
  else if params.password == "" || goLen params.password < 8 then
    (Except.error ⟨ErrCode.invalidArgument, "password must be at least 8 characters"⟩, s)
  else if hashErr then
    (Except.error ⟨ErrCode.internal, "failed to hash password"⟩, s)
  else
    let hashedPw := bcryptGenerateFromPassword salt params.password
    match randBytes with
    | none => (Except.error ⟨ErrCode.internal, "failed to generate API key"⟩, s)
    | some bytes =>
      let apiKey := generateAPIKey bytes
      match dbInsertUser s ⟨nextId s, params.email, hashedPw, apiKey⟩ execErr with
      | Except.error e =>
        (Except.error ⟨ErrCode.internal, "failed to create user: " ++ e⟩, s)
      | Except.ok (s2, rowsAffected) =>
        if rowsAffected == 0 then
          (Except.error ⟨ErrCode.alreadyExists, "email already registered"⟩, s2)
        else
          (Except.ok ⟨apiKey⟩, s2)

/-- Login (authapi.go:133-162).  Pure reads only: the store comes back
    unchanged on every path, mirroring that the handler runs one SELECT. -/
def Login (s : Store) (params : LoginParams) : Except Err LoginResponse × Store :=
  if params.email == "" || params.password == "" then
    (Except.error ⟨ErrCode.invalidArgument, "email and password required"⟩, s)
  else
    match findByEmail s params.email with
    | none => (Except.error ⟨ErrCode.unauthenticated, "invalid credentials"⟩, s)
    | some user =>
      if bcryptCompareHashAndPassword user.password params.password then
        (Except.ok ⟨user.apiKey⟩, s)
      else
        (Except.error ⟨ErrCode.unauthenticated, "invalid credentials"⟩, s)

/-- RegenerateKey (authapi.go:165-195).  `authUID` is auth.UserID() (none =
    not authenticated), `randBytes` is the crypto/rand outcome, `execErr`
    injects a database failure.  The code discards the update's result
    value (`_, err = db.Exec ...`), so RowsAffected is never inspected. -/
def RegenerateKey (s : Store) (authUID : Option String)
    (randBytes : Option (List (Fin 256))) (execErr : Option String) :
    Except Err RegenerateKeyResponse × Store :=
  match authUID with
  | none => (Except.error ⟨ErrCode.unauthenticated, "user not authenticated"⟩, s)
  | some uid =>
    match randBytes with
    | none => (Except.error ⟨ErrCode.internal, "failed to generate new key"⟩, s)
    | some bytes =>
      let newKey := generateAPIKey bytes
      match dbUpdateKey s newKey uid execErr with
      | Except.error _ => (Except.error ⟨ErrCode.internal, "failed to update key"⟩, s)
      | Except.ok (s2, _) => (Except.ok ⟨newKey⟩, s2)

/-- AuthHandler (authapi.go:198-223).  Returns the resolved identity (the
    account's email, as auth.UID) or an error, paired with the number of
    store queries the path executed (0 = rejected before touching the
    store). -/
def AuthHandler (s : Store) (apiKey : String) : Except Err String × Nat :=
  if !(hasPrefixStr "esk_" apiKey) || goLen apiKey < 8 then
    (Except.error ⟨ErrCode.unauthenticated, "invalid API key format; must start with 'esk_'"⟩, 0)
  else
    match findByKey s apiKey with
    | none => (Except.error ⟨ErrCode.unauthenticated, "invalid API key"⟩, 1)
    | some user => (Except.ok user.email, 1)

/-- Protected (authapi.go:236-253).  `authUID` is auth.UserID(); the handler
    runs no database statement, so the store is threaded through unchanged
    by construction. -/
def Protected (s : Store) (authUID : Option String) (params : ProtectedParams) :
    Except Err ProtectedResponse × Store :=
  if params.data == "" then
    (Except.error ⟨ErrCode.invalidArgument, "data is required"⟩, s)
  else
    match authUID with
    | none => (Except.error ⟨ErrCode.unauthenticated, "user not authenticated"⟩, s)
    | some uid =>
      (Except.ok ⟨"Protected data for " ++ uid ++ ": " ++ params.data⟩, s)

/-- The code of the error of a handler result, if it failed. -/
def errCodeOf {α : Type} : Except Err α → Option ErrCode
  | Except.ok _ => none
  | Except.error e => some e.code

/-- Whether a handler result succeeded. -/
def isOk {α : Type} : Except Err α → Bool
  | Except.ok _ => true
  | Except.error _ => false

end AuthAPI

deriving instance DecidableEq for Except

namespace AuthAPI

lemma goLen_append (a b : String) : goLen (a ++ b) = goLen a + goLen b := by
  simp [goLen, String.data_append]

lemma bcrypt_data (salt pw : String) :
    (bcryptGenerateFromPassword salt pw).data
      = bcryptHeader.data ++ (salt.data ++ pw.data) := by
  simp [bcryptGenerateFromPassword, List.append_assoc]

lemma bcrypt_parse (salt pw : String) (hsalt : salt.data.length = 22) :
    ((bcryptGenerateFromPassword salt pw).data.drop 7).take 22 = salt.data := by
  rw [bcrypt_data]
  have h7 : bcryptHeader.data.length = 7 := rfl
  rw [← h7, List.drop_left, ← hsalt, List.take_left]

lemma bcrypt_hash_ne (salt pw : String) : bcryptGenerateFromPassword salt pw ≠ pw := by
  intro h
  have hlen := congrArg (fun s : String => s.data.length) h
  simp only [bcrypt_data, List.length_append] at hlen
  have h7 : bcryptHeader.data.length = 7 := rfl
  omega

lemma bcryptCompare_iff (salt pw q : String) (hsalt : salt.data.length = 22) :
    bcryptCompareHashAndPassword (bcryptGenerateFromPassword salt pw) q = true ↔ q = pw := by
  unfold bcryptCompareHashAndPassword
  rw [beq_iff_eq, bcrypt_parse salt pw hsalt]
  constructor
  · intro h
    have hd := congrArg String.data h
    simp only [bcrypt_data] at hd
    simp only [List.append_assoc, List.append_right_inj] at hd
    exact String.ext hd.symm
  · intro h
    subst h
    apply String.ext
    simp [bcrypt_data, List.append_assoc]

lemma hexDigitVal_hexDigit : ∀ d : Fin 16, hexDigitVal (hexDigit d) = some d := by decide

lemma utf8Size_hexDigit : ∀ d : Fin 16, (hexDigit d).utf8Size = 1 := by decide

lemma hexDecodeList_hexEncodeList (bytes : List (Fin 256)) :
    hexDecodeList (hexEncodeList bytes) = some bytes := by
  induction bytes with
  | nil => rfl
  | cons b rest ih =>
    show hexDecodeList (hexPair b ++ hexEncodeList rest) = some (b :: rest)
    have hb : 16 * (b.val / 16) + b.val % 16 = b.val := Nat.div_add_mod b.val 16
    simp only [hexPair, List.cons_append, List.nil_append, hexDecodeList,
      hexDigitVal_hexDigit, Option.bind_eq_bind, Option.some_bind]
    simp [Fin.ext_iff, hb, ih]

lemma sum_utf8_hexEncodeList (bytes : List (Fin 256)) :
    ((hexEncodeList bytes).map Char.utf8Size).sum = 2 * bytes.length := by
  induction bytes with
  | nil => rfl
  | cons b rest ih =>
    show ((hexPair b ++ hexEncodeList rest).map Char.utf8Size).sum = 2 * (b :: rest).length
    simp only [List.map_append, List.sum_append, ih, hexPair, List.map_cons, List.map_nil,
      List.sum_cons, List.sum_nil, utf8Size_hexDigit, List.length_cons]
    omega

lemma length_hexEncodeList (bytes : List (Fin 256)) :
    (hexEncodeList bytes).length = 2 * bytes.length := by
  induction bytes with
  | nil => rfl
  | cons b rest ih =>
    show (hexPair b ++ hexEncodeList rest).length = 2 * (b :: rest).length
    simp only [List.length_append, ih, hexPair, List.length_cons, List.length_nil]
    omega

lemma goLen_hexEncode (bytes : List (Fin 256)) :
    goLen (hexEncode bytes) = 2 * bytes.length := by
  simpa [goLen, hexEncode] using sum_utf8_hexEncodeList bytes

lemma goLen_generateAPIKey (bytes : List (Fin 256)) :
    goLen (generateAPIKey bytes) = 4 + 2 * bytes.length := by
  rw [generateAPIKey, goLen_append, goLen_hexEncode]
  rfl

lemma hasPrefix_generateAPIKey (bytes : List (Fin 256)) :
    hasPrefixStr "esk_" (generateAPIKey bytes) = true := by
  simp [hasPrefixStr, generateAPIKey, String.data_append, List.isPrefixOf_iff_prefix]

end AuthAPI

namespace AuthAPI

lemma findByEmail_mem {s : Store} {e : String} {u : User} (h : findByEmail s e = some u) :
    u ∈ s ∧ u.email = e := by
  refine ⟨List.mem_of_find?_eq_some h, ?_⟩
  have := List.find?_some h
  exact beq_iff_eq.mp this

lemma findByKey_eq_none {s : Store} {k : String} :
    findByKey s k = none ↔ ∀ v ∈ s, v.apiKey ≠ k := by
  rw [findByKey, List.find?_eq_none]
  constructor
  · intro h v hv hk
    exact h v hv (by simp [hk])
  · intro h v hv hk
    exact h v hv (beq_iff_eq.mp hk)

lemma update_no_conflict (s : Store) (k uid : String)
    (hfresh : ∀ v ∈ s, v.apiKey ≠ k) :
    s.any (fun v => v.apiKey == k && !(v.email == uid)) = false := by
  rw [List.any_eq_false]
  intro v hv
  simp [hfresh v hv]

lemma findByKey_applyKeyUpdate_self (s : Store) (uid k : String) (u : User)
    (hfind : findByEmail s uid = some u)
    (hfresh : ∀ v ∈ s, v.apiKey ≠ k) :
    findByKey (applyKeyUpdate s k uid) k = some { u with apiKey := k } := by
  induction s with
  | nil => simp [findByEmail] at hfind
  | cons v rest ih =>
    by_cases hv : (v.email == uid) = true
    · have hu : u = v := by
        rw [findByEmail, List.find?_cons_of_pos rest hv] at hfind
        exact (Option.some_inj.mp hfind).symm
      subst hu
      show findByKey ((if (u.email == uid) = true then { u with apiKey := k } else u)
        :: applyKeyUpdate rest k uid) k = some { u with apiKey := k }
      rw [if_pos hv, findByKey, List.find?_cons_of_pos _ (by simp)]
    · have hfind' : findByEmail rest uid = some u := by
        rw [findByEmail, List.find?_cons_of_neg rest hv] at hfind
        exact hfind
      have hkv : v.apiKey ≠ k := hfresh v (List.mem_cons_self v rest)
      have step : findByKey (applyKeyUpdate (v :: rest) k uid) k
          = findByKey (applyKeyUpdate rest k uid) k := by
        show findByKey ((if (v.email == uid) = true then { v with apiKey := k } else v)
          :: applyKeyUpdate rest k uid) k = _
        rw [if_neg hv, findByKey, List.find?_cons_of_neg _ (by simp [hkv])]
        rfl
      rw [step]
      exact ih hfind' (fun w hw => hfresh w (List.mem_cons_of_mem v hw))

lemma findByKey_applyKeyUpdate_old (s : Store) (uid k : String) (u : User)
    (hwf : (s.map User.apiKey).Nodup)
    (hmem : u ∈ s) (hemail : u.email = uid)
    (hne : u.apiKey ≠ k) :
    findByKey (applyKeyUpdate s k uid) u.apiKey = none := by
  rw [findByKey, List.find?_eq_none]
  intro w hw
  simp only [applyKeyUpdate, List.mem_map] at hw
  obtain ⟨v, hv, rfl⟩ := hw
  by_cases hveq : (v.email == uid) = true
  · rw [if_pos hveq]
    intro hkeq
    exact hne (beq_iff_eq.mp hkeq).symm
  · rw [if_neg hveq]
    intro hkeq
    have hvu : v = u :=
      List.inj_on_of_nodup_map hwf hv hmem (beq_iff_eq.mp hkeq)
    rw [hvu, hemail] at hveq
    exact hveq (beq_iff_eq.mpr rfl)

end AuthAPI

namespace AuthAPI

lemma containsChar_ne_empty {e : String} (h : containsChar e '@' = true) : e ≠ "" := by
  intro he
  rw [he] at h
  exact absurd h (by decide)

lemma goLen_ge_ne_empty {p : String} (h : 8 ≤ goLen p) : p ≠ "" := by
  intro hp
  rw [hp] at h
  exact absurd h (by decide)

/-- C6: every key produced by generateAPIKey (used by both Signup and
    RegenerateKey) is the fixed literal "esk_" tag followed by the hex
    encoding of the 16 random bytes read from crypto/rand: it has the
    "esk_" prefix, its suffix is the 32-character hex encoding that decodes
    back to exactly the 16 random bytes, and the whole key is 36 bytes. -/
theorem generated_key_format (bytes : List (Fin 256)) (h : bytes.length = 16) :
    generateAPIKey bytes = "esk_" ++ hexEncode bytes ∧
    hasPrefixStr "esk_" (generateAPIKey bytes) = true ∧
    hexDecodeList (hexEncode bytes).data = some bytes ∧
    (hexEncode bytes).data.length = 32 ∧
    goLen (generateAPIKey bytes) = 36 := by
  refine ⟨rfl, hasPrefix_generateAPIKey bytes, hexDecodeList_hexEncodeList bytes, ?_, ?_⟩
  · show (hexEncodeList bytes).length = 32
    rw [length_hexEncodeList, h]
  · rw [goLen_generateAPIKey, h]

/-- C6 witness: the key format theorem applied at a concrete 16-byte random
    value. -/
theorem generated_key_format_witness :
    generateAPIKey (List.replicate 16 (0 : Fin 256))
      = "esk_" ++ hexEncode (List.replicate 16 (0 : Fin 256)) :=
  (generated_key_format (List.replicate 16 (0 : Fin 256)) (by decide)).1

/-- C10: the Protected endpoint fails with InvalidArgument ("data is
    required") when data is empty; with non-empty data it fails with
    Unauthenticated when no identity is attached, and otherwise returns
    "Protected data for <identity>: <data>"; it runs no database statement,
    so the store comes back unchanged on every path. -/
theorem protected_endpoint_spec (s : Store) (authUID : Option String) (p : ProtectedParams) :
    (p.data = "" →
      Protected s authUID p = (Except.error ⟨ErrCode.invalidArgument, "data is required"⟩, s)) ∧
    (p.data ≠ "" → authUID = none →
      Protected s authUID p
        = (Except.error ⟨ErrCode.unauthenticated, "user not authenticated"⟩, s)) ∧
    (∀ uid, p.data ≠ "" → authUID = some uid →
      Protected s authUID p
        = (Except.ok ⟨"Protected data for " ++ uid ++ ": " ++ p.data⟩, s)) ∧
    (Protected s authUID p).2 = s := by
  refine ⟨fun h => by simp [Protected, h], fun h hn => by simp [Protected, h, hn],
    fun uid h ha => by simp [Protected, h, ha], ?_⟩
  by_cases h : p.data = ""
  · simp [Protected, h]
  · cases authUID <;> simp [Protected, h]

/-- C10 witness: the Protected specification applied at a concrete call
    with an attached identity. -/
theorem protected_endpoint_spec_witness :
    Protected [] (some "a@x.com") ⟨"hello"⟩
      = (Except.ok ⟨"Protected data for a@x.com: hello"⟩, []) :=
  (protected_endpoint_spec [] (some "a@x.com") ⟨"hello"⟩).2.2.1 "a@x.com" (by decide) rfl

/-- C3: with non-empty email and password on both calls, Login for an email
    with no stored account and Login for a stored email with a
    non-matching password fail with the same error kind (Unauthenticated)
    and the same message text ("invalid credentials"). -/
theorem login_indistinguishable_failure (s : Store) (e1 p1 e2 p2 : String) (u : User)
    (he1 : e1 ≠ "") (hp1 : p1 ≠ "") (he2 : e2 ≠ "") (hp2 : p2 ≠ "")
    (habsent : findByEmail s e1 = none)
    (hfound : findByEmail s e2 = some u)
    (hwrong : bcryptCompareHashAndPassword u.password p2 = false) :
    (Login s ⟨e1, p1⟩).1 = Except.error ⟨ErrCode.unauthenticated, "invalid credentials"⟩ ∧
    (Login s ⟨e2, p2⟩).1 = Except.error ⟨ErrCode.unauthenticated, "invalid credentials"⟩ := by
  constructor
  · simp [Login, he1, hp1, habsent]
  · simp [Login, he2, hp2, hfound, hwrong]

/-- C3 witness: the indistinguishable-failure theorem at a concrete store
    holding one signed-up account, an unknown email, and a wrong password. -/
theorem login_indistinguishable_failure_witness :
    (Login [⟨1, "a@x.com", bcryptGenerateFromPassword "ABCDEFGHIJKLMNOPQRSTUV" "longpass1",
        "esk_k1"⟩] ⟨"b@x.com", "longpass1"⟩).1
      = Except.error ⟨ErrCode.unauthenticated, "invalid credentials"⟩ :=
  (login_indistinguishable_failure
    [⟨1, "a@x.com", bcryptGenerateFromPassword "ABCDEFGHIJKLMNOPQRSTUV" "longpass1", "esk_k1"⟩]
    "b@x.com" "longpass1" "a@x.com" "wrongpass"
    ⟨1, "a@x.com", bcryptGenerateFromPassword "ABCDEFGHIJKLMNOPQRSTUV" "longpass1", "esk_k1"⟩
    (by decide) (by decide) (by decide) (by decide) (by decide) (by decide) (by decide)).1

/-- C7: a successful Login returns exactly the api_key currently stored for
    that email (no fresh key is generated), and every Login call (on any
    path) returns the store unchanged, leaving every field of every stored
    account as it was. -/
theorem login_returns_stored_key (s : Store) (p : LoginParams) (u : User)
    (hne : p.email ≠ "") (hnp : p.password ≠ "")
    (hfound : findByEmail s p.email = some u)
    (hok : bcryptCompareHashAndPassword u.password p.password = true) :
    Login s p = (Except.ok ⟨u.apiKey⟩, s) ∧ ∀ q : LoginParams, (Login s q).2 = s := by
  constructor
  · simp [Login, hne, hnp, hfound, hok]
  · intro q
    by_cases h0 : (q.email == "" || q.password == "") = true
    · simp [Login, h0]
    · rcases hf : findByEmail s q.email with _ | u2
      · simp [Login, h0, hf]
      · by_cases hc : bcryptCompareHashAndPassword u2.password q.password = true
        · simp [Login, h0, hf, hc]
        · simp [Login, h0, hf, hc]

/-- C7 witness: the theorem at a concrete store and a matching login. -/
theorem login_returns_stored_key_witness :
    Login [⟨1, "a@x.com", bcryptGenerateFromPassword "ABCDEFGHIJKLMNOPQRSTUV" "longpass1",
        "esk_k1"⟩] ⟨"a@x.com", "longpass1"⟩
      = (Except.ok ⟨"esk_k1"⟩,
         [⟨1, "a@x.com", bcryptGenerateFromPassword "ABCDEFGHIJKLMNOPQRSTUV" "longpass1",
           "esk_k1"⟩]) :=
  (login_returns_stored_key
    [⟨1, "a@x.com", bcryptGenerateFromPassword "ABCDEFGHIJKLMNOPQRSTUV" "longpass1", "esk_k1"⟩]
    ⟨"a@x.com", "longpass1"⟩
    ⟨1, "a@x.com", bcryptGenerateFromPassword "ABCDEFGHIJKLMNOPQRSTUV" "longpass1", "esk_k1"⟩
    (by decide) (by decide) (by decide) (by decide)).1

/-- C5: a Signup whose email already has a stored account fails with
    AlreadyExists ("email already registered") and returns the store
    unchanged: no row is created and no field of the existing row (password
    hash and api_key included) is mutated. -/
theorem signup_already_exists (s : Store) (p : SignupParams) (u : User)
    (salt : String) (bytes : List (Fin 256))
    (hat : containsChar p.email '@' = true)
    (hpw : 8 ≤ goLen p.password)
    (hfound : findByEmail s p.email = some u) :
    Signup s p false salt (some bytes) none
      = (Except.error ⟨ErrCode.alreadyExists, "email already registered"⟩, s) := by
  have he := containsChar_ne_empty hat
  have hp0 := goLen_ge_ne_empty hpw
  have hlt : ¬ (goLen p.password < 8) := by omega
  have hexists : s.any (fun v => v.email == p.email) = true := by
    rw [List.any_eq_true]
    exact ⟨u, (findByEmail_mem hfound).1, beq_iff_eq.mpr (findByEmail_mem hfound).2⟩
  simp [Signup, dbInsertUser, he, hat, hp0, hlt, hexists]

/-- C5 witness: the theorem at a concrete one-account store and a second
    signup for the same email. -/
theorem signup_already_exists_witness :
    Signup [⟨1, "a@x.com", "h1", "esk_k1"⟩] ⟨"a@x.com", "other12345"⟩ false
        "ABCDEFGHIJKLMNOPQRSTUV" (some (List.replicate 16 (0 : Fin 256))) none
      = (Except.error ⟨ErrCode.alreadyExists, "email already registered"⟩,
         [⟨1, "a@x.com", "h1", "esk_k1"⟩]) :=
  signup_already_exists [⟨1, "a@x.com", "h1", "esk_k1"⟩] ⟨"a@x.com", "other12345"⟩
    ⟨1, "a@x.com", "h1", "esk_k1"⟩ "ABCDEFGHIJKLMNOPQRSTUV" (List.replicate 16 (0 : Fin 256))
    (by decide) (by decide) (by decide)

end AuthAPI

namespace AuthAPI

lemma findByEmail_eq_none {s : Store} {e : String} :
    findByEmail s e = none ↔ ∀ v ∈ s, v.email ≠ e := by
  rw [findByEmail, List.find?_eq_none]
  constructor
  · intro h v hv hk
    exact h v hv (by simp [hk])
  · intro h v hv hk
    exact h v hv (beq_iff_eq.mp hk)

lemma applyKeyUpdate_absent (s : Store) (k uid : String)
    (habsent : ∀ v ∈ s, v.email ≠ uid) :
    applyKeyUpdate s k uid = s := by
  rw [applyKeyUpdate]
  have h : s.map (fun v => if v.email == uid then { v with apiKey := k } else v) = s.map id :=
    List.map_congr_left (fun a ha => by simp [habsent a ha])
  rw [h, List.map_id]

/-- C4: password opacity.  For an account stored by Signup (its password
    field is the bcrypt hash of the signup password, under bcrypt's
    22-character salt), the stored representation never equals the
    plaintext, and a subsequent Login for that email succeeds iff the
    presented plaintext equals the password supplied at Signup. -/
theorem password_opacity (s : Store) (e salt pw q : String) (u : User)
    (hsalt : salt.data.length = 22)
    (hpwlen : 8 ≤ goLen pw)
    (he : e ≠ "")
    (hfound : findByEmail s e = some u)
    (hstored : u.password = bcryptGenerateFromPassword salt pw) :
    u.password ≠ pw ∧ (isOk (Login s ⟨e, q⟩).1 = true ↔ q = pw) := by
  have hpw0 : pw ≠ "" := goLen_ge_ne_empty hpwlen
  constructor
  · rw [hstored]
    exact bcrypt_hash_ne salt pw
  · by_cases hq : q = ""
    · subst hq
      constructor
      · intro h
        simp [Login, he, isOk] at h
      · intro h
        exact absurd h.symm hpw0
    · have hcmp : bcryptCompareHashAndPassword u.password q = true ↔ q = pw := by
        rw [hstored]
        exact bcryptCompare_iff salt pw q hsalt
      by_cases hc : bcryptCompareHashAndPassword u.password q = true
      · have hqpw : q = pw := hcmp.mp hc
        subst hqpw
        simp [Login, he, hq, hfound, hc, isOk]
      · have hqpw : ¬ q = pw := fun hqq => hc (hcmp.mpr hqq)
        simp [Login, he, hq, hfound, hc, isOk, hqpw]

/-- C4 witness: opacity and the login iff, at a concrete account created
    with password "longpass1" and the matching presented plaintext. -/
theorem password_opacity_witness :
    (⟨1, "a@x.com", bcryptGenerateFromPassword "ABCDEFGHIJKLMNOPQRSTUV" "longpass1",
      "esk_k1"⟩ : User).password ≠ "longpass1" ∧
    (isOk (Login [⟨1, "a@x.com", bcryptGenerateFromPassword "ABCDEFGHIJKLMNOPQRSTUV" "longpass1",
        "esk_k1"⟩] ⟨"a@x.com", "longpass1"⟩).1 = true ↔ "longpass1" = "longpass1") :=
  password_opacity
    [⟨1, "a@x.com", bcryptGenerateFromPassword "ABCDEFGHIJKLMNOPQRSTUV" "longpass1", "esk_k1"⟩]
    "a@x.com" "ABCDEFGHIJKLMNOPQRSTUV" "longpass1" "longpass1"
    ⟨1, "a@x.com", bcryptGenerateFromPassword "ABCDEFGHIJKLMNOPQRSTUV" "longpass1", "esk_k1"⟩
    (by decide) (by decide) (by decide) (by decide) rfl

/-- C8: AuthHandler rejects any token lacking the "esk_" prefix or shorter
    than 8 bytes with Unauthenticated ("invalid API key format; must start
    with 'esk_'") and zero store queries; a well-formed token is looked up
    by exact api_key match (one store query): no match fails with
    Unauthenticated ("invalid API key"), and a match resolves to that
    account's email. -/
theorem authHandler_spec (s : Store) (tok : String) :
    ((hasPrefixStr "esk_" tok = false ∨ goLen tok < 8) →
      AuthHandler s tok = (Except.error ⟨ErrCode.unauthenticated,
        "invalid API key format; must start with 'esk_'"⟩, 0)) ∧
    (hasPrefixStr "esk_" tok = true → 8 ≤ goLen tok →
      (findByKey s tok = none →
        AuthHandler s tok = (Except.error ⟨ErrCode.unauthenticated, "invalid API key"⟩, 1)) ∧
      (∀ u, findByKey s tok = some u → AuthHandler s tok = (Except.ok u.email, 1))) := by
  constructor
  · rintro (h | h)
    · simp [AuthHandler, h]
    · simp [AuthHandler, h]
  · intro h1 h2
    have hlt : ¬ (goLen tok < 8) := by omega
    constructor
    · intro hf
      simp [AuthHandler, h1, hlt, hf]
    · intro u hf
      simp [AuthHandler, h1, hlt, hf]

/-- C8 witness: the format-rejection arm of the AuthHandler specification
    at a concrete malformed token. -/
theorem authHandler_spec_witness :
    AuthHandler [] "badtoken" = (Except.error ⟨ErrCode.unauthenticated,
      "invalid API key format; must start with 'esk_'"⟩, 0) :=
  (authHandler_spec [] "badtoken").1 (Or.inl (by decide))

/-- C1 counterexample: with an authenticated identity that no longer
    resolves to any row (empty store) the UPDATE succeeds while affecting
    zero rows, yet RegenerateKey returns the fresh key instead of failing
    with an Internal error. -/
theorem regenerateKey_zero_rows_cex :
    dbUpdateKey [] (generateAPIKey (List.replicate 16 (0 : Fin 256))) "a@x.com" none
      = Except.ok ([], 0) ∧
    RegenerateKey [] (some "a@x.com") (some (List.replicate 16 (0 : Fin 256))) none
      = (Except.ok ⟨"esk_00000000000000000000000000000000"⟩, []) := by
  exact ⟨rfl, by decide⟩

/-- C1 amended: RegenerateKey never inspects the update's RowsAffected;
    when the update succeeds while matching zero rows (the identity no
    longer resolves to an account) it still returns the freshly generated
    key, leaving the store unchanged; Internal is returned only when the
    update itself errors. -/
theorem regenerateKey_ignores_zero_rows (s : Store) (uid : String) (bytes : List (Fin 256))
    (habsent : findByEmail s uid = none)
    (hfresh : findByKey s (generateAPIKey bytes) = none) :
    dbUpdateKey s (generateAPIKey bytes) uid none = Except.ok (s, 0) ∧
    RegenerateKey s (some uid) (some bytes) none
      = (Except.ok ⟨generateAPIKey bytes⟩, s) ∧
    (∀ e, RegenerateKey s (some uid) (some bytes) (some e)
      = (Except.error ⟨ErrCode.internal, "failed to update key"⟩, s)) := by
  have habs : ∀ v ∈ s, v.email ≠ uid := findByEmail_eq_none.mp habsent
  have hfresh' : ∀ v ∈ s, v.apiKey ≠ generateAPIKey bytes := findByKey_eq_none.mp hfresh
  have hconf := update_no_conflict s (generateAPIKey bytes) uid hfresh'
  have hupd := applyKeyUpdate_absent s (generateAPIKey bytes) uid habs
  have hfil : s.filter (fun v => v.email == uid) = [] :=
    List.filter_eq_nil_iff.mpr (fun v hv => by simp [habs v hv])
  have hdb : dbUpdateKey s (generateAPIKey bytes) uid none = Except.ok (s, 0) := by
    simp [dbUpdateKey, hconf, hupd, hfil]
  refine ⟨hdb, by simp [RegenerateKey, hdb], fun e => by simp [RegenerateKey, dbUpdateKey]⟩

/-- C1 amended witness: the amended behaviour at the empty store. -/
theorem regenerateKey_ignores_zero_rows_witness :
    RegenerateKey [] (some "a@x.com") (some (List.replicate 16 (0 : Fin 256))) none
      = (Except.ok ⟨generateAPIKey (List.replicate 16 (0 : Fin 256))⟩, []) :=
  (regenerateKey_ignores_zero_rows [] "a@x.com" (List.replicate 16 (0 : Fin 256))
    (by decide) (by decide)).2.1

/-- C9 counterexample: two different underlying store insert failures
    produce two different client-visible Internal messages, each embedding
    the underlying error text, so the message accompanying an Internal
    signup failure is not a fixed generic one. -/
theorem signup_internal_message_cex :
    (Signup [] ⟨"a@x.com", "longpass1"⟩ false "ABCDEFGHIJKLMNOPQRSTUV"
        (some (List.replicate 16 (0 : Fin 256))) (some "boom")).1
      = Except.error ⟨ErrCode.internal, "failed to create user: boom"⟩ ∧
    (Signup [] ⟨"a@x.com", "longpass1"⟩ false "ABCDEFGHIJKLMNOPQRSTUV"
        (some (List.replicate 16 (0 : Fin 256))) (some "bang")).1
      = Except.error ⟨ErrCode.internal, "failed to create user: bang"⟩ ∧
    ("failed to create user: boom" : String) ≠ "failed to create user: bang" := by
  refine ⟨by decide, by decide, by decide⟩

/-- C9 amended: hashing and key-generation failures fail with Internal and
    fixed generic messages ("failed to hash password", "failed to generate
    API key"); a store insert error fails with Internal but its message
    embeds the underlying error text; in every case the store is returned
    unchanged, so no partially created account remains. -/
theorem signup_internal_failures (s : Store) (p : SignupParams) (salt : String)
    (bytes : List (Fin 256)) (e : String)
    (hat : containsChar p.email '@' = true) (hpw : 8 ≤ goLen p.password) :
    Signup s p true salt (some bytes) none
      = (Except.error ⟨ErrCode.internal, "failed to hash password"⟩, s) ∧
    Signup s p false salt none none
      = (Except.error ⟨ErrCode.internal, "failed to generate API key"⟩, s) ∧
    Signup s p false salt (some bytes) (some e)
      = (Except.error ⟨ErrCode.internal, "failed to create user: " ++ e⟩, s) := by
  have he := containsChar_ne_empty hat
  have hp0 := goLen_ge_ne_empty hpw
  have hlt : ¬ (goLen p.password < 8) := by omega
  refine ⟨?_, ?_, ?_⟩ <;> simp [Signup, dbInsertUser, he, hat, hp0, hlt]

/-- C9 amended witness: the hashing-failure arm at a concrete request. -/
theorem signup_internal_failures_witness :
    Signup [] ⟨"a@x.com", "longpass1"⟩ true "ABCDEFGHIJKLMNOPQRSTUV"
        (some (List.replicate 16 (0 : Fin 256))) none
      = (Except.error ⟨ErrCode.internal, "failed to hash password"⟩, []) :=
  (signup_internal_failures [] ⟨"a@x.com", "longpass1"⟩ "ABCDEFGHIJKLMNOPQRSTUV"
    (List.replicate 16 (0 : Fin 256)) "boom" (by decide) (by decide)).1

end AuthAPI

namespace AuthAPI

/-- C2: rotation irreversibility.  For an account that the authenticated
    identity resolves to, when the freshly generated key collides with no
    stored key, RegenerateKey returns the new key and replaces the
    account's key in place; afterwards AuthHandler on the previous key
    fails with an Unauthenticated error, and AuthHandler on the new key
    succeeds and resolves to the same identity (email) the account had
    before the rotation. -/
theorem rotation_irreversibility (s : Store) (uid : String) (u : User)
    (bytes : List (Fin 256))
    (hwf : Wf s) (hlen : bytes.length = 16)
    (hfound : findByEmail s uid = some u)
    (hfresh : findByKey s (generateAPIKey bytes) = none) :
    RegenerateKey s (some uid) (some bytes) none
      = (Except.ok ⟨generateAPIKey bytes⟩, applyKeyUpdate s (generateAPIKey bytes) uid) ∧
    errCodeOf (AuthHandler (applyKeyUpdate s (generateAPIKey bytes) uid) u.apiKey).1
      = some ErrCode.unauthenticated ∧
    AuthHandler (applyKeyUpdate s (generateAPIKey bytes) uid) (generateAPIKey bytes)
      = (Except.ok u.email, 1) := by
  have hfresh' : ∀ v ∈ s, v.apiKey ≠ generateAPIKey bytes := findByKey_eq_none.mp hfresh
  have hconf := update_no_conflict s (generateAPIKey bytes) uid hfresh'
  obtain ⟨hmem, hemail⟩ := findByEmail_mem hfound
  have hune : u.apiKey ≠ generateAPIKey bytes := hfresh' u hmem
  refine ⟨?_, ?_, ?_⟩
  · simp [RegenerateKey, dbUpdateKey, hconf]
  · have hold := findByKey_applyKeyUpdate_old s uid (generateAPIKey bytes) u hwf.2 hmem
      hemail hune
    unfold AuthHandler
    split
    · rfl
    · simp only [hold]
      rfl
  · have hself := findByKey_applyKeyUpdate_self s uid (generateAPIKey bytes) u hfound hfresh'
    have hpre : hasPrefixStr "esk_" (generateAPIKey bytes) = true :=
      hasPrefix_generateAPIKey bytes
    have hglen : goLen (generateAPIKey bytes) = 36 := by
      rw [goLen_generateAPIKey, hlen]
    unfold AuthHandler
    split
    · rename_i hcond
      rw [hpre, hglen] at hcond
      exact absurd hcond (by decide)
    · simp only [hself]

/-- C2 witness: rotation at a concrete one-account store. -/
theorem rotation_irreversibility_witness :
    RegenerateKey [⟨1, "a@x.com", "h1", "esk_oldkey1"⟩] (some "a@x.com")
        (some (List.replicate 16 (0 : Fin 256))) none
      = (Except.ok ⟨generateAPIKey (List.replicate 16 (0 : Fin 256))⟩,
         applyKeyUpdate [⟨1, "a@x.com", "h1", "esk_oldkey1"⟩]
           (generateAPIKey (List.replicate 16 (0 : Fin 256))) "a@x.com") :=
  (rotation_irreversibility [⟨1, "a@x.com", "h1", "esk_oldkey1"⟩] "a@x.com"
    ⟨1, "a@x.com", "h1", "esk_oldkey1"⟩ (List.replicate 16 (0 : Fin 256))
    ⟨by decide, by decide⟩ (by decide) (by decide) (by decide)).1

end AuthAPI
